import Mathlib

/-!
Verification development for the GATT client engine in `src/gattlib.cpp`
(pygattlib). The C++ module is shallowly embedded: connection state,
transport channel and codec session become explicit record fields; the
external collaborators (BlueZ ATT codec, transport, HCI link control) are
represented by environment parameters describing what they return, and
every externally visible interaction of an operation (sends, cancels,
waits, the HCI connection update) is recorded in an ordered action list.
Machine integers are Nat; exceptions become an error result type whose
constructors follow the spec's error taxonomy, each carrying the exact
message string thrown by the C++ code.
-/

/-- `MAX_WAIT_FOR_PACKET` from `gattlib.h` (seconds). -/
def MAX_WAIT_FOR_PACKET : Nat := 15

/-- BlueZ `ATT_DEFAULT_LE_MTU` (23 bytes). -/
def ATT_DEFAULT_LE_MTU : Nat := 23

/-- BlueZ `ATT_CID`: the fixed L2CAP channel id for ATT. -/
def ATT_CID : Nat := 4

/-- BlueZ `ATT_OP_HANDLE_NOTIFY` opcode. -/
def ATT_OP_HANDLE_NOTIFY : Nat := 0x1B

/-- BlueZ `ATT_OP_HANDLE_IND` opcode. -/
def ATT_OP_HANDLE_IND : Nat := 0x1D

/-- BlueZ `ATT_ECODE_ABORTED`, used by `read_by_uuid_cb` when decoding fails. -/
def ATT_ECODE_ABORTED : Nat := 0x82

/-- Modelled from the spec: the external ATT status-code-to-string lookup
(`att_ecode2str`) used to build protocol error messages; only the fact that
it yields some deterministic text per status matters to the claims. -/
def att_ecode2str (status : Nat) : String := "att error code " ++ toString status

/-- Parsed Bluetooth UUID (`bt_uuid_t` of the BlueZ collaborator). -/
inductive BtUuid where
  | uuid16 (v : Nat)
  | uuid32 (v : Nat)
  | uuid128 (v : Nat)

/-- Hex digit test, as accepted by the BlueZ UUID string parser. -/
def isHexCh (c : Char) : Bool :=
  c.isDigit || (97 ≤ c.toNat && c.toNat ≤ 102) || (65 ≤ c.toNat && c.toNat ≤ 70)

/-- Numeric value of one hex digit. -/
def hexDigitVal (c : Char) : Nat :=
  if c.isDigit then c.toNat - 48
  else if 97 ≤ c.toNat && c.toNat ≤ 102 then c.toNat - 87
  else if 65 ≤ c.toNat && c.toNat ≤ 70 then c.toNat - 55
  else 0

/-- Value of a big-endian string of hex digits. -/
def hexValList (cs : List Char) : Nat :=
  cs.foldl (fun acc c => acc * 16 + hexDigitVal c) 0

/-- Shape test for the hyphenated 128-bit UUID form (8-4-4-4-12 hex digits). -/
def uuid128Ok (cs : List Char) : Bool :=
  cs.enum.all fun p =>
    if p.1 == 8 || p.1 == 13 || p.1 == 18 || p.1 == 23 then p.2 == '-'
    else isHexCh p.2

/-- Modelled from the spec: the external BlueZ UUID parser
(`bt_string_to_uuid` of `lib/uuid.c`), a collaborator of this module. It
accepts a 16-bit UUID as 4 hex digits, a 32-bit UUID as 8 hex digits, and a
128-bit UUID in the 36-character hyphenated hex form; anything else —
including the empty string — fails (returns a negative code in C, `none`
here). -/
def bt_string_to_uuid (s : String) : Option BtUuid :=
  let cs := s.toList
  if cs.length == 4 && cs.all isHexCh then some (.uuid16 (hexValList cs))
  else if cs.length == 8 && cs.all isHexCh then some (.uuid32 (hexValList cs))
  else if cs.length == 36 && uuid128Ok cs then
    some (.uuid128 (hexValList (cs.filter fun c => c != '-')))
  else none

/-- Error taxonomy of the spec (§7); each constructor carries the literal
message text of the corresponding `std::runtime_error` in `gattlib.cpp`. -/
inductive GattError where
  | invalidState (msg : String)
  | transportError (msg : String)
  | requestFailed (msg : String)
  | timeout (msg : String)
  | protocolError (msg : String)
  | channelNotReady (msg : String)
  | notConnected (msg : String)
  | invalidArgument (msg : String)

/-- Codec session (`GAttrib*`): the negotiated session MTU
(`g_attrib_new`/`g_attrib_set_mtu`) and the two event registrations made in
`connect_cb` (`g_attrib_register` for notify and indicate). `none` at the
requester level models a NULL `GAttrib*`. -/
structure AttribSession where
  mtu : Nat
  notifyRegistered : Bool
  indicateRegistered : Bool

/-- One externally visible interaction of an operation, in program order:
the `gatt_*` codec sends (with the session pointer and arguments passed),
`g_attrib_cancel`, the blocking wait with its timeout value, connection
setup steps, and the HCI connection-parameter update of `check_channel`. -/
inductive ExtAction where
  | gattConnect
  | addWatch
  | hciConnUpdate
  | sendMtu (session : Option AttribSession) (mtu : Nat)
  | sendReadByHandle (session : Option AttribSession) (handle : Nat)
  | sendReadByUuid (session : Option AttribSession) (startH endH : Nat) (uuid : BtUuid)
  | sendWriteByHandle (session : Option AttribSession) (handle : Nat) (data : List Nat)
  | sendWriteCmd (session : Option AttribSession) (handle : Nat) (data : List Nat)
  | sendDiscoverPrimary (session : Option AttribSession) (uuid : Option BtUuid)
  | sendDiscoverChar (session : Option AttribSession) (startH endH : Nat) (uuid : Option BtUuid)
  | cancel (id : Nat)
  | waitFor (t : Nat)

/-- Decoded result items accumulated by `GATTResponse::on_response`:
raw byte payloads (`std::string`), a Python int (MTU exchange), and the
Python dicts built by the discovery callbacks. -/
structure PrimaryRec where
  uuid : String
  startH : Nat
  endH : Nat

structure CharRec where
  uuid : String
  handle : Nat
  properties : Nat
  value_handle : Nat

inductive RespItem where
  | bytes (data : List Nat)
  | pyInt (n : Nat)
  | primary (p : PrimaryRec)
  | characteristic (c : CharRec)

/-- `GATTResponse`: status byte, accumulated data list, and the
`Event` set-flag (`notified` is whether `notify` has signalled it). -/
structure GATTResponse where
  _status : Nat
  _data : List RespItem
  notified : Bool

/-- Fresh response, as built by the `GATTResponse` constructor
(`_status(0)`, empty list, event not set). -/
def GATTResponse.empty : GATTResponse := ⟨0, [], false⟩

/-- `GATTResponse::on_response`: append one decoded item. -/
def GATTResponse.on_response (r : GATTResponse) (item : RespItem) : GATTResponse :=
  { r with _data := r._data ++ [item] }

/-- `GATTResponse::notify`: store the status and set the event. -/
def GATTResponse.notify (r : GATTResponse) (status : Nat) : GATTResponse :=
  { r with _status := status, notified := true }

/-- `GATTResponse::wait(timeout)`. Real time is abstracted: the event is set
before the deadline exactly when the operation's completion was delivered
(the `completion` argument of each operation below); the timeout value used
is recorded as a `waitFor` action by the caller. Returns `.ok false` on
timeout, throws (`.error msg`) when signalled with a non-zero status, and
returns `.ok true` otherwise. -/
def GATTResponse.wait (r : GATTResponse) : Except String Bool :=
  if r.notified = false then .ok false
  else if r._status ≠ 0 then
    .error ("Characteristic value/descriptor operation failed: " ++ att_ecode2str r._status)
  else .ok true

/-- `GATTResponse::received`. -/
def GATTResponse.received (r : GATTResponse) : List RespItem := r._data

/-- The requester's mutable connection state (`GATTRequester::State`, plus
`STATE_ERROR_CONNECTING` which the implementation file adds). -/
inductive ConnState where
  | disconnected
  | connecting
  | connected
  | errorConnecting
deriving DecidableEq

/-- `GATTRequester`: connection state, the transport channel pointer
(`GIOChannel* _channel`; `none` = NULL), the codec session pointer
(`GAttrib* _attrib`; `none` = NULL) and the effective MTU (`_mtu`).
`_device`, `_address` and `_hci_socket` are omitted: no claim depends on
them, and the `_notify_id`/`_indicate_id` registration ids live inside
`AttribSession`. -/
structure GATTRequester where
  _state : ConnState
  _channel : Option Unit
  _attrib : Option AttribSession
  _mtu : Nat

/-- State of a freshly constructed requester (`do_connect = false`):
`STATE_DISCONNECTED`, NULL channel and attrib, default MTU. -/
def initRequester : GATTRequester :=
  ⟨.disconnected, none, none, ATT_DEFAULT_LE_MTU⟩

/-- A completion delivered by the background loop to one of the simple
byte-payload callbacks: the ATT status byte and the raw response bytes
(`none` models a NULL `data` pointer). -/
structure PduCompletion where
  status : Nat
  data : Option (List Nat)

/-- `exchange_mtu_cb`: only when the status is zero AND the data pointer is
non-NULL does it decode the 16-bit MTU from bytes 1..2 (little endian),
append it and signal the event; otherwise it does nothing at all — in
particular it never calls `notify` for an error response. -/
def exchange_mtu_cb (c : PduCompletion) (resp : GATTResponse) : GATTResponse :=
  if c.status = 0 ∧ c.data.isSome then
    let d := c.data.getD []
    let mtu := ((d.getD 2 0) <<< 8) ||| (d.getD 1 0)
    (resp.on_response (.pyInt mtu)).notify c.status
  else resp

/-- `read_by_handler_cb`: on success append the payload minus its first
byte; always signal the event with the status. -/
def read_by_handler_cb (c : PduCompletion) (resp : GATTResponse) : GATTResponse :=
  (if c.status = 0 ∧ c.data.isSome then
    resp.on_response (.bytes ((c.data.getD []).drop 1))
  else resp).notify c.status

/-- `write_by_handle_cb`: on success append the full payload; always signal
the event with the status. -/
def write_by_handle_cb (c : PduCompletion) (resp : GATTResponse) : GATTResponse :=
  (if c.status = 0 ∧ c.data.isSome then
    resp.on_response (.bytes (c.data.getD []))
  else resp).notify c.status

/-- What `dec_read_by_type_resp` yields inside `read_by_uuid_cb`:
`nullData` models a NULL `data` pointer, `badList` a NULL decode result,
`recordList len items` a decoded `att_data_list` whose items each carry a
2-byte handle followed by the value (`len` is the uniform item length). -/
inductive UuidPayload where
  | nullData
  | badList
  | recordList (len : Nat) (items : List (List Nat))

/-- `read_by_uuid_cb`: signal immediately on non-zero status or NULL data;
signal `ATT_ECODE_ABORTED` when the list fails to decode; otherwise strip
the 2-byte handle from each item, append the values, and signal. -/
def read_by_uuid_cb (status : Nat) (payload : UuidPayload) (resp : GATTResponse) : GATTResponse :=
  match payload with
  | .nullData => resp.notify status
  | .badList =>
    if status ≠ 0 then resp.notify status
    else resp.notify ATT_ECODE_ABORTED
  | .recordList len items =>
    if status ≠ 0 then resp.notify status
    else
      (items.foldl
        (fun rp item => rp.on_response (.bytes ((item.drop 2).take (len - 2)))) resp).notify status

/-- `discover_primary_cb`: a non-zero status or an empty (NULL) service
list signals at once; otherwise each `gatt_primary` becomes a dict record
before the event is signalled. -/
def discover_primary_cb (status : Nat) (services : List PrimaryRec) (resp : GATTResponse) : GATTResponse :=
  if status ≠ 0 ∨ services.isEmpty then resp.notify status
  else (services.foldl (fun rp p => rp.on_response (.primary p)) resp).notify status

/-- `discover_char_cb`: same shape as `discover_primary_cb` with
`gatt_char` records. -/
def discover_char_cb (status : Nat) (characteristics : List CharRec) (resp : GATTResponse) : GATTResponse :=
  if status ≠ 0 ∨ characteristics.isEmpty then resp.notify status
  else (characteristics.foldl (fun rp c => rp.on_response (.characteristic c)) resp).notify status

/-- Environment of one `check_channel` call. `ready i` is the value the
i-th iteration of the poll loop reads for
`_channel != NULL && _attrib != NULL` (the loop thread mutates both
concurrently); `budget` is how many 1 ms poll iterations fit before
`time(NULL) - ts > MAX_WAIT_FOR_PACKET` turns true; `connUpdateRet` is the
`hci_le_conn_update` return value and `errnoStr` the `strerror(errno)`
text for its failure message. -/
structure ChanEnv where
  ready : Nat → Bool
  budget : Nat
  connUpdateRet : Int
  errnoStr : String

/-- The poll loop of `check_channel`: test readiness at index `i`; exit
with the index at which readiness was first observed, or `none` (the
"Channel or attrib not ready" throw) once the remaining budget is spent
while still unready. -/
def ccGo (ready : Nat → Bool) : Nat → Nat → Option Nat
  | i, 0 => if ready i then some i else none
  | i, rem + 1 => if ready i then some i else ccGo ready (i + 1) rem

/-- `GATTRequester::check_channel`: poll until channel and attrib are both
non-NULL, throwing `ChannelNotReady` past the deadline. `should_update` is
true exactly when the loop body ran at least once (exit index ≠ 0); in
that case `hci_le_conn_update` is invoked, and a negative return is a hard
error. Returns whether the update ran, plus the recorded actions. -/
def GATTRequester.check_channel (_r : GATTRequester) (env : ChanEnv) :
    Except GattError Bool × List ExtAction :=
  match ccGo env.ready 0 env.budget with
  | none => (.error (.channelNotReady "Channel or attrib not ready"), [])
  | some i =>
    if i ≠ 0 then
      if env.connUpdateRet < 0 then
        (.error (.transportError ("Could not update HCI connection: " ++ env.errnoStr)),
         [.hciConnUpdate])
      else (.ok true, [.hciConnUpdate])
    else (.ok false, [])

/-- `GATTRequester::check_connected`: throw "Not connected" unless the
state is `STATE_CONNECTED`. -/
def GATTRequester.check_connected (r : GATTRequester) : Except GattError Unit :=
  if r._state ≠ .connected then .error (.notConnected "Not connected") else .ok ()

/-- Result of one caller-facing operation: the requester afterwards, the
value returned or error thrown, and the ordered external actions. -/
structure OpResult (α : Type) where
  req : GATTRequester
  res : Except GattError α
  actions : List ExtAction

/-- Boost `extract<int>` on a received item (used by `exchange_mtu`). -/
def extract_int : RespItem → Option Nat
  | .pyInt n => some n
  | _ => none

/-- `GATTRequester::exchange_mtu`: send the MTU-exchange PDU through the
codec (`sendId` is the correlation id `gatt_exchange_mtu` returns; 0 means
the send could not be initiated), wait `MAX_WAIT_FOR_PACKET`, cancel and
throw on timeout, and on success store the negotiated MTU locally and in
the codec session (`g_attrib_set_mtu`) and return it. `completion` is what
the loop delivered to `exchange_mtu_cb` before the deadline, if anything.
Note: no state or channel check precedes the send. -/
def GATTRequester.exchange_mtu (r : GATTRequester) (mtu : Nat) (sendId : Nat)
    (completion : Option PduCompletion) : OpResult Nat :=
  let acts := [ExtAction.sendMtu r._attrib mtu]
  if sendId = 0 then
    ⟨r, .error (.requestFailed "exchange_mtu request failed"), acts⟩
  else
    let resp := match completion with
      | none => GATTResponse.empty
      | some c => exchange_mtu_cb c GATTResponse.empty
    let acts := acts ++ [.waitFor MAX_WAIT_FOR_PACKET]
    match resp.wait with
    | .ok false => ⟨r, .error (.timeout "exchange_mtu timed out"), acts ++ [.cancel sendId]⟩
    | .error msg => ⟨r, .error (.protocolError msg), acts⟩
    | .ok true =>
      match (resp.received.head?).bind extract_int with
      | some m =>
        ⟨{ r with _mtu := m, _attrib := r._attrib.map (fun s => { s with mtu := m }) },
         .ok m, acts⟩
      | none =>
        -- models the boost::python exception from result[0] / extract<int>
        -- on a malformed result; unreachable for the actual callback
        ⟨r, .error (.requestFailed "boost result extraction failed"), acts⟩

/-- `GATTRequester::read_by_handle_async`: `check_channel`, then hand the
request to `gatt_read_char`, returning its correlation id unchecked. -/
def GATTRequester.read_by_handle_async (r : GATTRequester) (handle : Nat) (env : ChanEnv)
    (sendId : Nat) : Except GattError Nat × List ExtAction :=
  match r.check_channel env with
  | (.error e, acts) => (.error e, acts)
  | (.ok _, acts) => (.ok sendId, acts ++ [.sendReadByHandle r._attrib handle])

/-- `GATTRequester::read_by_handle`: async send, "read_by_handle failed" on
a zero correlation id, wait the base timeout, cancel-then-throw on timeout,
return the accumulated items otherwise. -/
def GATTRequester.read_by_handle (r : GATTRequester) (handle : Nat) (env : ChanEnv)
    (sendId : Nat) (completion : Option PduCompletion) : OpResult (List RespItem) :=
  match r.read_by_handle_async handle env sendId with
  | (.error e, acts) => ⟨r, .error e, acts⟩
  | (.ok id, acts) =>
    if id = 0 then ⟨r, .error (.requestFailed "read_by_handle failed"), acts⟩
    else
      let resp := match completion with
        | none => GATTResponse.empty
        | some c => read_by_handler_cb c GATTResponse.empty
      let acts := acts ++ [.waitFor MAX_WAIT_FOR_PACKET]
      match resp.wait with
      | .ok false => ⟨r, .error (.timeout "read_by_handle timed out"), acts ++ [.cancel id]⟩
      | .error msg => ⟨r, .error (.protocolError msg), acts⟩
      | .ok true => ⟨r, .ok resp.received, acts⟩

/-- `GATTRequester::read_by_uuid_async`: fixed handle range 0x0001-0xffff,
`check_channel`, then parse the UUID — "Invalid UUID\n" when the string
does not parse (there is no empty-string case here) — and send. -/
def GATTRequester.read_by_uuid_async (r : GATTRequester) (uuid : String) (env : ChanEnv)
    (sendId : Nat) : Except GattError Nat × List ExtAction :=
  match r.check_channel env with
  | (.error e, acts) => (.error e, acts)
  | (.ok _, acts) =>
    match bt_string_to_uuid uuid with
    | none => (.error (.invalidArgument "Invalid UUID\n"), acts)
    | some u => (.ok sendId, acts ++ [.sendReadByUuid r._attrib 0x0001 0xffff u])

/-- `GATTRequester::read_by_uuid`: async send, "read_by_uuid failed" on a
zero id, wait the base timeout, cancel-then-throw on timeout. -/
def GATTRequester.read_by_uuid (r : GATTRequester) (uuid : String) (env : ChanEnv)
    (sendId : Nat) (completion : Option (Nat × UuidPayload)) : OpResult (List RespItem) :=
  match r.read_by_uuid_async uuid env sendId with
  | (.error e, acts) => ⟨r, .error e, acts⟩
  | (.ok id, acts) =>
    if id = 0 then ⟨r, .error (.requestFailed "read_by_uuid failed"), acts⟩
    else
      let resp := match completion with
        | none => GATTResponse.empty
        | some c => read_by_uuid_cb c.1 c.2 GATTResponse.empty
      let acts := acts ++ [.waitFor MAX_WAIT_FOR_PACKET]
      match resp.wait with
      | .ok false => ⟨r, .error (.timeout "read_by_uuid timed out"), acts ++ [.cancel id]⟩
      | .error msg => ⟨r, .error (.protocolError msg), acts⟩
      | .ok true => ⟨r, .ok resp.received, acts⟩

/-- `GATTRequester::write_by_handle_async`: `check_channel`, send through
`gatt_write_char`, and — unlike the read variants — throw
"write_by_handle_async failed" right here when the id is zero. -/
def GATTRequester.write_by_handle_async (r : GATTRequester) (handle : Nat) (data : List Nat)
    (env : ChanEnv) (sendId : Nat) : Except GattError Nat × List ExtAction :=
  match r.check_channel env with
  | (.error e, acts) => (.error e, acts)
  | (.ok _, acts) =>
    let acts := acts ++ [ExtAction.sendWriteByHandle r._attrib handle data]
    if sendId = 0 then (.error (.requestFailed "write_by_handle_async failed"), acts)
    else (.ok sendId, acts)

/-- `GATTRequester::write_by_handle`: async send (which already rejects a
zero id), wait the base timeout, cancel-then-throw on timeout. -/
def GATTRequester.write_by_handle (r : GATTRequester) (handle : Nat) (data : List Nat)
    (env : ChanEnv) (sendId : Nat) (completion : Option PduCompletion) :
    OpResult (List RespItem) :=
  match r.write_by_handle_async handle data env sendId with
  | (.error e, acts) => ⟨r, .error e, acts⟩
  | (.ok id, acts) =>
    let resp := match completion with
      | none => GATTResponse.empty
      | some c => write_by_handle_cb c GATTResponse.empty
    let acts := acts ++ [.waitFor MAX_WAIT_FOR_PACKET]
    match resp.wait with
    | .ok false => ⟨r, .error (.timeout "write_by_handle timed out"), acts ++ [.cancel id]⟩
    | .error msg => ⟨r, .error (.protocolError msg), acts⟩
    | .ok true => ⟨r, .ok resp.received, acts⟩

/-- `GATTRequester::write_cmd_by_handle`: fire-and-forget write command;
only `check_channel` precedes the send, and nothing is awaited. -/
def GATTRequester.write_cmd_by_handle (r : GATTRequester) (handle : Nat) (data : List Nat)
    (env : ChanEnv) : OpResult Unit :=
  match r.check_channel env with
  | (.error e, acts) => ⟨r, .error e, acts⟩
  | (.ok _, acts) => ⟨r, .ok (), acts ++ [.sendWriteCmd r._attrib handle data]⟩

/-- `GATTRequester::discover_primary_async`: `check_connected`, then
`gatt_discover_primary` with a NULL UUID; "Discover primary failed" on a
zero correlation id. -/
def GATTRequester.discover_primary_async (r : GATTRequester) (sendId : Nat) :
    Except GattError Nat × List ExtAction :=
  match r.check_connected with
  | .error e => (.error e, [])
  | .ok _ =>
    let acts := [ExtAction.sendDiscoverPrimary r._attrib none]
    if sendId = 0 then (.error (.requestFailed "Discover primary failed"), acts)
    else (.ok sendId, acts)

/-- `GATTRequester::discover_primary`: async send, wait five times the base
timeout, cancel-then-throw on timeout. -/
def GATTRequester.discover_primary (r : GATTRequester) (sendId : Nat)
    (completion : Option (Nat × List PrimaryRec)) : OpResult (List RespItem) :=
  match r.discover_primary_async sendId with
  | (.error e, acts) => ⟨r, .error e, acts⟩
  | (.ok id, acts) =>
    let resp := match completion with
      | none => GATTResponse.empty
      | some c => discover_primary_cb c.1 c.2 GATTResponse.empty
    let acts := acts ++ [.waitFor (5 * MAX_WAIT_FOR_PACKET)]
    match resp.wait with
    | .ok false => ⟨r, .error (.timeout "discover_primary timed out"), acts ++ [.cancel id]⟩
    | .error msg => ⟨r, .error (.protocolError msg), acts⟩
    | .ok true => ⟨r, .ok resp.received, acts⟩

/-- `GATTRequester::discover_characteristics_async`: `check_connected`;
an empty filter string sends with a NULL UUID, a non-empty one must parse
("Invalid UUID" otherwise, before any send);
"discover_characteristics_async failed" on a zero correlation id. -/
def GATTRequester.discover_characteristics_async (r : GATTRequester) (sendId : Nat)
    (startH endH : Nat) (uuid_str : String) : Except GattError Nat × List ExtAction :=
  match r.check_connected with
  | .error e => (.error e, [])
  | .ok _ =>
    let sent : Except GattError (List ExtAction) :=
      if uuid_str.length = 0 then .ok [.sendDiscoverChar r._attrib startH endH none]
      else match bt_string_to_uuid uuid_str with
        | none => .error (.invalidArgument "Invalid UUID")
        | some u => .ok [.sendDiscoverChar r._attrib startH endH (some u)]
    match sent with
    | .error e => (.error e, [])
    | .ok acts =>
      if sendId = 0 then (.error (.requestFailed "discover_characteristics_async failed"), acts)
      else (.ok sendId, acts)

/-- `GATTRequester::discover_characteristics`: async send, wait five times
the base timeout, cancel-then-throw on timeout. -/
def GATTRequester.discover_characteristics (r : GATTRequester) (sendId : Nat)
    (startH endH : Nat) (uuid_str : String)
    (completion : Option (Nat × List CharRec)) : OpResult (List RespItem) :=
  match r.discover_characteristics_async sendId startH endH uuid_str with
  | (.error e, acts) => ⟨r, .error e, acts⟩
  | (.ok id, acts) =>
    let resp := match completion with
      | none => GATTResponse.empty
      | some c => discover_char_cb c.1 c.2 GATTResponse.empty
    let acts := acts ++ [.waitFor (5 * MAX_WAIT_FOR_PACKET)]
    match resp.wait with
    | .ok false =>
      ⟨r, .error (.timeout "discover_characteristics timed out"), acts ++ [.cancel id]⟩
    | .error msg => ⟨r, .error (.protocolError msg), acts⟩
    | .ok true => ⟨r, .ok resp.received, acts⟩

/-- `GATTRequester::is_connected`. -/
def GATTRequester.is_connected (r : GATTRequester) : Bool :=
  r._state == .connected

/-- `GATTRequester::disconnect`: a no-op when already disconnected;
otherwise release the codec session (`g_attrib_unref`, pointer nulled),
shut down and release the channel (pointer nulled), and enter
`STATE_DISCONNECTED`. The function cannot throw. -/
def GATTRequester.disconnect (r : GATTRequester) : GATTRequester :=
  if r._state = .disconnected then r
  else { r with _attrib := none, _channel := none, _state := .disconnected }

/-- `connect_cb(channel, err, userp)` run against requester `r`. `err` is
the transport failure (`some msg` models a non-NULL `GError`); `btIo` is
what `bt_io_get` reports, `none` modelling a `bt_io_get` error (fall back
to the default MTU; likewise when the channel id is the fixed ATT CID).
The second component of the result is the error text the callback surfaces
to any caller: on failure the code frees the `GError` and returns, so it
is always `none`. On success it creates the codec session with the chosen
MTU, registers the notify and indicate handlers, and enters
`STATE_CONNECTED`. -/
def connect_cb (r : GATTRequester) (err : Option String) (btIo : Option (Nat × Nat)) :
    GATTRequester × Option String :=
  match err with
  | some _ => ({ r with _state := .errorConnecting }, none)
  | none =>
    let mtu := match btIo with
      | none => ATT_DEFAULT_LE_MTU
      | some (m, cid) => if cid = ATT_CID then ATT_DEFAULT_LE_MTU else m
    ({ r with _attrib := some ⟨mtu, true, true⟩, _state := .connected }, none)

/-- `GATTRequester::connect(wait, ...)`: "Already connecting or connected"
unless `STATE_DISCONNECTED`; enter `STATE_CONNECTING`; `gatt_connect`
(`gattConnectErr = some msg` models a NULL return with that `GError`
message, which resets the state to `STATE_DISCONNECTED` and is rethrown to
the caller); on success register the hang-up watch and, when `wait` is
true, block in `check_channel`. -/
def GATTRequester.connect (r : GATTRequester) (wait : Bool) (gattConnectErr : Option String)
    (env : ChanEnv) : OpResult Unit :=
  if r._state ≠ .disconnected then
    ⟨r, .error (.invalidState "Already connecting or connected"), []⟩
  else
    match gattConnectErr with
    | some msg =>
      ⟨{ r with _state := .disconnected }, .error (.transportError msg), [.gattConnect]⟩
    | none =>
      let r2 : GATTRequester := { r with _state := .connecting, _channel := some () }
      let acts := [ExtAction.gattConnect, ExtAction.addWatch]
      if wait then
        match r2.check_channel env with
        | (.error e, acts2) => ⟨r2, .error e, acts ++ acts2⟩
        | (.ok _, acts2) => ⟨r2, .ok (), acts ++ acts2⟩
      else ⟨r2, .ok (), acts⟩

/-- Hooks and sends performed by `events_handler` for one unsolicited PDU,
in order. -/
inductive EventHook where
  | notifyHook (handle : Nat) (data : List Nat)
  | indicateHook (handle : Nat) (data : List Nat)
  | sendConfirmation

/-- Little-endian 16-bit attribute handle read from bytes 1..2 of an event
PDU (`htobs(bt_get_le16(&data[1]))` on a little-endian host). -/
def eventHandleOf (data : List Nat) : Nat :=
  (data.getD 1 0) ||| ((data.getD 2 0) <<< 8)

/-- `events_handler`: dispatch one unsolicited PDU by opcode. A
notification invokes `on_notification` and returns at once (no
confirmation). An indication invokes `on_indication`, then encodes a
confirmation (`enc_confirmation`; `encOlen` is its result) and sends it
only when the encoded length is positive; the `g_attrib_send` return value
(`_sendResult`) is ignored, so neither an encode nor a send failure raises
anything. Any other opcode throws "Invalid event opcode!". -/
def events_handler (data : List Nat) (encOlen : Nat) (_sendResult : Nat) :
    Except String (List EventHook) :=
  let handle := eventHandleOf data
  if data.getD 0 0 = ATT_OP_HANDLE_NOTIFY then
    .ok [.notifyHook handle data]
  else if data.getD 0 0 = ATT_OP_HANDLE_IND then
    if encOlen > 0 then .ok [.indicateHook handle data, .sendConfirmation]
    else .ok [.indicateHook handle data]
  else .error "Invalid event opcode!"

/-- Whole-machine configuration for the lifecycle model: the requester plus
whether a `connect_cb` invocation is still pending (registered by a
successful `gatt_connect`, fired at most once by the background loop). -/
structure Sys where
  req : GATTRequester
  cbPending : Bool

/-- Freshly constructed requester, no callback pending. -/
def initSys : Sys := ⟨initRequester, false⟩

/-- One atomic event of the lifecycle: the caller-side effects of
`connect()` (successful or failed `gatt_connect`), the background loop
firing `connect_cb` (with or without a transport error), and `disconnect()`
— which also covers the hang-up path, since `disconnect_cb` just calls
`disconnect()`. A failed `connect()` from a non-disconnected state changes
nothing and is therefore not a transition. -/
inductive Step : Sys → Sys → Prop where
  | connectOk (s : Sys) (h : s.req._state = .disconnected) :
      Step s ⟨{ s.req with _state := .connecting, _channel := some () }, true⟩
  | connectFail (s : Sys) (h : s.req._state = .disconnected) :
      Step s ⟨{ s.req with _state := .disconnected }, s.cbPending⟩
  | connectCbErr (s : Sys) (msg : String) (h : s.cbPending = true) :
      Step s ⟨(connect_cb s.req (some msg) none).1, false⟩
  | connectCbOk (s : Sys) (btIo : Option (Nat × Nat)) (h : s.cbPending = true) :
      Step s ⟨(connect_cb s.req none btIo).1, false⟩
  | disconnectStep (s : Sys) :
      Step s ⟨s.req.disconnect, if s.req._state = .disconnected then s.cbPending else false⟩

/-- Configurations reachable from a fresh requester under any sequence of
connect/disconnect operations and transport callbacks. -/
inductive Reachable : Sys → Prop where
  | init : Reachable initSys
  | step {s t : Sys} : Reachable s → Step s t → Reachable t

/-- Inductive invariant of the lifecycle model: the channel is non-NULL
exactly away from `Disconnected`; `Disconnected` has no codec session; a
pending `connect_cb` implies `Connecting`. -/
def SysInv (s : Sys) : Prop :=
  (s.req._channel.isSome = true ↔ s.req._state ≠ .disconnected) ∧
  (s.req._state = .disconnected → s.req._attrib = none) ∧
  (s.cbPending = true → s.req._state = .connecting)

/-- Concrete fixtures used by closed evidence theorems below. -/
def connectedReq : GATTRequester :=
  ⟨.connected, some (), some ⟨23, true, true⟩, 23⟩

/-- Channel environment that is ready at once (established connection). -/
def readyEnv : ChanEnv := ⟨fun _ => true, 15, 0, "ETIMEDOUT"⟩

/-- Channel environment that never becomes ready. -/
def idleEnv : ChanEnv := ⟨fun _ => false, 15, 0, "ETIMEDOUT"⟩

theorem ccGo_ready0 (ready : Nat → Bool) (rem i : Nat) (h : ready i = true) :
    ccGo ready i rem = some i := by
  cases rem <;> simp [ccGo, h]

theorem ccGo_ready_of_some (ready : Nat → Bool) :
    ∀ rem i k, ccGo ready i rem = some k → ready k = true := by
  intro rem
  induction rem with
  | zero =>
    intro i k h
    by_cases hr : ready i
    · simp [ccGo, hr] at h; simpa [← h] using hr
    · simp [ccGo, hr] at h
  | succ rem ih =>
    intro i k h
    by_cases hr : ready i
    · simp [ccGo, hr] at h; simpa [← h] using hr
    · simp [ccGo, hr] at h; exact ih (i + 1) k h

theorem ccGo_none (ready : Nat → Bool) :
    ∀ rem i, (∀ j, j ≤ rem → ready (i + j) = false) → ccGo ready i rem = none := by
  intro rem
  induction rem with
  | zero =>
    intro i h
    have h0 := h 0 (Nat.le_refl 0)
    simp at h0
    simp [ccGo, h0]
  | succ rem ih =>
    intro i h
    have h0 := h 0 (Nat.zero_le _)
    simp at h0
    have hrest : ∀ j, j ≤ rem → ready (i + 1 + j) = false := by
      intro j hj
      have := h (j + 1) (Nat.succ_le_succ hj)
      have harith : i + (j + 1) = i + 1 + j := by omega
      rwa [harith] at this
    simp [ccGo, h0]
    exact ih (i + 1) hrest

theorem ccGo_isSome (ready : Nat → Bool) :
    ∀ rem i j, j ≤ rem → ready (i + j) = true → (ccGo ready i rem).isSome = true := by
  intro rem
  induction rem with
  | zero =>
    intro i j hj hr
    have hj0 : j = 0 := Nat.le_zero.mp hj
    subst hj0
    simp at hr
    simp [ccGo, hr]
  | succ rem ih =>
    intro i j hj hr
    by_cases h0 : ready i
    · simp [ccGo, h0]
    · match j, hj with
      | 0, _ => simp at hr; exact absurd hr h0
      | j + 1, hj =>
        have harith : i + (j + 1) = i + 1 + j := by omega
        rw [harith] at hr
        have := ih (i + 1) j (Nat.le_of_succ_le_succ hj) hr
        simpa [ccGo, h0] using this

theorem check_channel_ready0 (r : GATTRequester) (env : ChanEnv) (h : env.ready 0 = true) :
    r.check_channel env = (.ok false, []) := by
  simp [GATTRequester.check_channel, ccGo_ready0 env.ready env.budget 0 h]

/-- Helper: the inductive invariant holds in every reachable configuration. -/
theorem reachable_sysInv {s : Sys} (h : Reachable s) : SysInv s := by
  induction h with
  | init =>
    exact ⟨by simp [initSys, initRequester], by simp [initSys, initRequester],
      by simp [initSys]⟩
  | @step s t hr hstep ih =>
    obtain ⟨ih1, ih2, ih3⟩ := ih
    cases hstep with
    | connectOk h =>
      exact ⟨by simp, by simp, fun _ => rfl⟩
    | connectFail h =>
      refine ⟨?_, ?_, ?_⟩
      · have hch : ¬ s.req._channel.isSome = true := fun hc => (ih1.mp hc) h
        simpa using hch
      · intro _; exact ih2 h
      · intro hp
        have h2 := ih3 hp
        rw [h] at h2
        exact absurd h2 (by decide)
    | connectCbErr msg hp =>
      have hst := ih3 hp
      have hch : s.req._channel.isSome = true := ih1.mpr (by rw [hst]; simp)
      refine ⟨?_, ?_, ?_⟩
      · simp [connect_cb, hch]
      · simp [connect_cb]
      · simp
    | connectCbOk btIo hp =>
      have hst := ih3 hp
      have hch : s.req._channel.isSome = true := ih1.mpr (by rw [hst]; simp)
      refine ⟨?_, ?_, ?_⟩
      · simp [connect_cb, hch]
      · simp [connect_cb]
      · simp
    | disconnectStep =>
      by_cases hd : s.req._state = .disconnected
      · have hno : s.req.disconnect = s.req := by simp [GATTRequester.disconnect, hd]
        have heq : (⟨s.req.disconnect,
            if s.req._state = .disconnected then s.cbPending else false⟩ : Sys) = s := by
          rw [hno, if_pos hd]
        rw [heq]
        exact ⟨ih1, ih2, ih3⟩
      · refine ⟨?_, ?_, ?_⟩
        · simp [GATTRequester.disconnect, hd]
        · simp [GATTRequester.disconnect, hd]
        · simp [hd]

/-- Claim C2 counterexample: the configuration reached by a successful
`connect()` whose `connect_cb` then reports a transport error is reachable,
holds a non-null transport channel, and is in `ErrorConnecting` — neither
`Connected` nor `Connecting`. This refutes the claimed invariant "a
non-null transport implies state = Connected or Connecting". -/
theorem reachable_errorConnecting_holds_channel :
    Reachable (⟨⟨.errorConnecting, some (), none, ATT_DEFAULT_LE_MTU⟩, false⟩ : Sys) ∧
    (some () : Option Unit).isSome = true ∧
    ¬ ((ConnState.errorConnecting = .connected) ∨ (ConnState.errorConnecting = .connecting)) :=
  ⟨Reachable.step (Reachable.step Reachable.init (Step.connectOk initSys rfl))
    (Step.connectCbErr ⟨⟨.connecting, some (), none, ATT_DEFAULT_LE_MTU⟩, true⟩
      "le-connection-failed" rfl),
   rfl, by decide⟩

/-- Claim C2 (amended): in every reachable configuration, a non-null
transport channel implies the state is Connecting, Connected or
ErrorConnecting (the code parks a failed asynchronous connect in
`ErrorConnecting` without releasing the channel), state Disconnected
implies the channel and the codec session handle — and with it all
registered callbacks — are null/absent, and the machine never enters
Connected without a live transport. -/
theorem reachable_channel_state_invariant (s : Sys) (h : Reachable s) :
    (s.req._channel.isSome = true →
      s.req._state = .connecting ∨ s.req._state = .connected ∨
        s.req._state = .errorConnecting) ∧
    (s.req._state = .disconnected → s.req._channel = none ∧ s.req._attrib = none) ∧
    (s.req._state = .connected → s.req._channel.isSome = true) := by
  obtain ⟨i1, i2, i3⟩ := reachable_sysInv h
  refine ⟨?_, ?_, ?_⟩
  · intro hc
    have hne := i1.mp hc
    cases hst : s.req._state
    · exact absurd hst hne
    · exact Or.inl rfl
    · exact Or.inr (Or.inl rfl)
    · exact Or.inr (Or.inr rfl)
  · intro hd
    refine ⟨?_, i2 hd⟩
    have hns : ¬ s.req._channel.isSome = true := fun hc => (i1.mp hc) hd
    simpa using hns
  · intro hc
    exact i1.mpr (by rw [hc]; simp)

/-- Closed instantiation of `reachable_channel_state_invariant` at the
initial configuration. -/
theorem reachable_channel_state_invariant_witness :
    initSys.req._channel = none ∧ initSys.req._attrib = none :=
  (reachable_channel_state_invariant initSys Reachable.init).2.1 rfl

/-- Claim C3 counterexample: a `connect()` call whose transport open fails
synchronously (`gatt_connect` returns NULL) propagates the transport's
error message — but leaves the state `Disconnected`, not `ErrorConnecting`;
so the claim "transitions to ErrorConnecting AND propagates the message"
fails at this concrete input. -/
theorem connect_sync_failure_not_errorConnecting :
    (initRequester.connect false (some "connect error") idleEnv).req._state ≠
      .errorConnecting ∧
    (initRequester.connect false (some "connect error") idleEnv).req._state =
      .disconnected ∧
    (initRequester.connect false (some "connect error") idleEnv).res =
      .error (.transportError "connect error") :=
  ⟨by decide, rfl, rfl⟩

/-- Claim C3 (amended): the two transport-failure paths of connect behave
complementarily. A synchronous failure (transport open returns NULL) resets
the state to Disconnected and propagates the transport's error message to
the caller as a TransportError; an asynchronous failure (`connect_cb`
invoked with an error) transitions to ErrorConnecting but frees the error
without propagating its message to anyone. -/
theorem connect_failure_paths :
    (∀ (r : GATTRequester) (w : Bool) (env : ChanEnv) (msg : String),
      r._state = .disconnected →
      r.connect w (some msg) env =
        ⟨{ r with _state := .disconnected }, .error (.transportError msg), [.gattConnect]⟩) ∧
    (∀ (r : GATTRequester) (btIo : Option (Nat × Nat)) (msg : String),
      connect_cb r (some msg) btIo = ({ r with _state := .errorConnecting }, none)) := by
  constructor
  · intro r w env msg h
    simp [GATTRequester.connect, h]
  · intro r btIo msg
    rfl

/-- Closed instantiation of `connect_failure_paths`. -/
theorem connect_failure_paths_witness :
    initRequester.connect false (some "boom") idleEnv =
      ⟨{ initRequester with _state := .disconnected },
       .error (.transportError "boom"), [.gattConnect]⟩ ∧
    connect_cb initRequester (some "boom") none =
      ({ initRequester with _state := .errorConnecting }, none) :=
  ⟨connect_failure_paths.1 initRequester false idleEnv "boom" rfl,
   connect_failure_paths.2 initRequester none "boom"⟩

/-- Claim C5: operations with a state precondition invoked in the wrong
state raise the designated error before any I/O: `connect` raises
InvalidState ("Already connecting or connected") unless Disconnected, and
the discovery operations raise NotConnected ("Not connected") unless
Connected — in all cases with an empty action list, i.e. no send. -/
theorem wrong_state_fails_before_io :
    (∀ (r : GATTRequester) (w : Bool) (gerr : Option String) (env : ChanEnv),
      r._state ≠ .disconnected →
      r.connect w gerr env =
        ⟨r, .error (.invalidState "Already connecting or connected"), []⟩) ∧
    (∀ (r : GATTRequester) (id : Nat) (c : Option (Nat × List PrimaryRec)),
      r._state ≠ .connected →
      r.discover_primary id c = ⟨r, .error (.notConnected "Not connected"), []⟩) ∧
    (∀ (r : GATTRequester) (id s e : Nat) (u : String) (c : Option (Nat × List CharRec)),
      r._state ≠ .connected →
      r.discover_characteristics id s e u c =
        ⟨r, .error (.notConnected "Not connected"), []⟩) := by
  refine ⟨?_, ?_, ?_⟩
  · intro r w gerr env h
    simp [GATTRequester.connect, h]
  · intro r id c h
    simp [GATTRequester.discover_primary, GATTRequester.discover_primary_async,
      GATTRequester.check_connected, h]
  · intro r id s e u c h
    simp [GATTRequester.discover_characteristics,
      GATTRequester.discover_characteristics_async, GATTRequester.check_connected, h]

/-- Closed instantiation of `wrong_state_fails_before_io`. -/
theorem wrong_state_fails_before_io_witness :
    connectedReq.connect false none idleEnv =
      ⟨connectedReq, .error (.invalidState "Already connecting or connected"), []⟩ ∧
    initRequester.discover_primary 1 none =
      ⟨initRequester, .error (.notConnected "Not connected"), []⟩ ∧
    initRequester.discover_characteristics 1 1 0xffff "180f" none =
      ⟨initRequester, .error (.notConnected "Not connected"), []⟩ :=
  ⟨wrong_state_fails_before_io.1 connectedReq false none idleEnv (by decide),
   wrong_state_fails_before_io.2.1 initRequester 1 none (by decide),
   wrong_state_fails_before_io.2.2 initRequester 1 1 0xffff "180f" none (by decide)⟩

/-- Claim C6: `disconnect` is idempotent. It raises no error (the embedded
function has no error outcome at all, matching the C++ code which contains
no throw); when already Disconnected it is a no-op; after any call the
state is Disconnected; and a disconnect from a live state nulls both the
transport channel and the codec session, so a second call returns the same
configuration as the first. -/
theorem disconnect_idempotent :
    (∀ r : GATTRequester, r._state = .disconnected → r.disconnect = r) ∧
    (∀ r : GATTRequester, r.disconnect.disconnect = r.disconnect) ∧
    (∀ r : GATTRequester, r.disconnect._state = .disconnected) ∧
    (∀ r : GATTRequester, r._state ≠ .disconnected →
      r.disconnect._channel = none ∧ r.disconnect._attrib = none) := by
  refine ⟨?_, ?_, ?_, ?_⟩
  · intro r h
    simp [GATTRequester.disconnect, h]
  · intro r
    by_cases h : r._state = .disconnected <;> simp [GATTRequester.disconnect, h]
  · intro r
    by_cases h : r._state = .disconnected <;> simp [GATTRequester.disconnect, h]
  · intro r h
    simp [GATTRequester.disconnect, h]

/-- Closed instantiation of `disconnect_idempotent`. -/
theorem disconnect_idempotent_witness :
    initRequester.disconnect = initRequester ∧
    connectedReq.disconnect.disconnect = connectedReq.disconnect ∧
    (connectedReq.disconnect._channel = none ∧ connectedReq.disconnect._attrib = none) :=
  ⟨disconnect_idempotent.1 initRequester rfl,
   disconnect_idempotent.2.1 connectedReq,
   disconnect_idempotent.2.2.2 connectedReq (by decide)⟩

/-- Claim C4: every blocking request that receives no completion within its
operation-specific timeout (five times the base timeout for the discovery
operations, the base timeout for MTU exchange, reads and writes) first
cancels the outstanding codec callback via its correlation id and then
fails with a Timeout error — the recorded action trace ends with
`cancel id` after the `waitFor` of the proper deadline, so the background
loop can no longer complete into the abandoned response. -/
theorem timeout_cancels_then_fails :
    (∀ (r : GATTRequester) (m id : Nat), id ≠ 0 →
      r.exchange_mtu m id none =
        ⟨r, .error (.timeout "exchange_mtu timed out"),
         [.sendMtu r._attrib m, .waitFor MAX_WAIT_FOR_PACKET, .cancel id]⟩) ∧
    (∀ (r : GATTRequester) (h id : Nat) (env : ChanEnv),
      env.ready 0 = true → id ≠ 0 →
      r.read_by_handle h env id none =
        ⟨r, .error (.timeout "read_by_handle timed out"),
         [.sendReadByHandle r._attrib h, .waitFor MAX_WAIT_FOR_PACKET, .cancel id]⟩) ∧
    (∀ (r : GATTRequester) (u : String) (bu : BtUuid) (id : Nat) (env : ChanEnv),
      env.ready 0 = true → bt_string_to_uuid u = some bu → id ≠ 0 →
      r.read_by_uuid u env id none =
        ⟨r, .error (.timeout "read_by_uuid timed out"),
         [.sendReadByUuid r._attrib 0x0001 0xffff bu, .waitFor MAX_WAIT_FOR_PACKET,
          .cancel id]⟩) ∧
    (∀ (r : GATTRequester) (h : Nat) (d : List Nat) (id : Nat) (env : ChanEnv),
      env.ready 0 = true → id ≠ 0 →
      r.write_by_handle h d env id none =
        ⟨r, .error (.timeout "write_by_handle timed out"),
         [.sendWriteByHandle r._attrib h d, .waitFor MAX_WAIT_FOR_PACKET, .cancel id]⟩) ∧
    (∀ (r : GATTRequester) (id : Nat),
      r._state = .connected → id ≠ 0 →
      r.discover_primary id none =
        ⟨r, .error (.timeout "discover_primary timed out"),
         [.sendDiscoverPrimary r._attrib none, .waitFor (5 * MAX_WAIT_FOR_PACKET),
          .cancel id]⟩) ∧
    (∀ (r : GATTRequester) (id s e : Nat),
      r._state = .connected → id ≠ 0 →
      r.discover_characteristics id s e "" none =
        ⟨r, .error (.timeout "discover_characteristics timed out"),
         [.sendDiscoverChar r._attrib s e none, .waitFor (5 * MAX_WAIT_FOR_PACKET),
          .cancel id]⟩) := by
  refine ⟨?_, ?_, ?_, ?_, ?_, ?_⟩
  · intro r m id hid
    simp [GATTRequester.exchange_mtu, hid, GATTResponse.empty, GATTResponse.wait]
  · intro r h id env h0 hid
    simp [GATTRequester.read_by_handle, GATTRequester.read_by_handle_async,
      check_channel_ready0 r env h0, hid, GATTResponse.empty, GATTResponse.wait]
  · intro r u bu id env h0 hu hid
    simp [GATTRequester.read_by_uuid, GATTRequester.read_by_uuid_async,
      check_channel_ready0 r env h0, hu, hid, GATTResponse.empty, GATTResponse.wait]
  · intro r h d id env h0 hid
    simp [GATTRequester.write_by_handle, GATTRequester.write_by_handle_async,
      check_channel_ready0 r env h0, hid, GATTResponse.empty, GATTResponse.wait]
  · intro r id hc hid
    simp [GATTRequester.discover_primary, GATTRequester.discover_primary_async,
      GATTRequester.check_connected, hc, hid, GATTResponse.empty, GATTResponse.wait]
  · intro r id s e hc hid
    simp [GATTRequester.discover_characteristics,
      GATTRequester.discover_characteristics_async, GATTRequester.check_connected,
      hc, hid, GATTResponse.empty, GATTResponse.wait]

/-- Closed instantiation of `timeout_cancels_then_fails` on a connected
requester with a ready channel. -/
theorem timeout_cancels_then_fails_witness :
    connectedReq.exchange_mtu 517 3 none =
      ⟨connectedReq, .error (.timeout "exchange_mtu timed out"),
       [.sendMtu (some ⟨23, true, true⟩) 517, .waitFor 15, .cancel 3]⟩ ∧
    connectedReq.read_by_handle 0x2A readyEnv 4 none =
      ⟨connectedReq, .error (.timeout "read_by_handle timed out"),
       [.sendReadByHandle (some ⟨23, true, true⟩) 0x2A, .waitFor 15, .cancel 4]⟩ ∧
    connectedReq.read_by_uuid "180f" readyEnv 5 none =
      ⟨connectedReq, .error (.timeout "read_by_uuid timed out"),
       [.sendReadByUuid (some ⟨23, true, true⟩) 0x0001 0xffff (.uuid16 0x180f),
        .waitFor 15, .cancel 5]⟩ ∧
    connectedReq.write_by_handle 0x2A [1, 2] readyEnv 6 none =
      ⟨connectedReq, .error (.timeout "write_by_handle timed out"),
       [.sendWriteByHandle (some ⟨23, true, true⟩) 0x2A [1, 2], .waitFor 15, .cancel 6]⟩ ∧
    connectedReq.discover_primary 7 none =
      ⟨connectedReq, .error (.timeout "discover_primary timed out"),
       [.sendDiscoverPrimary (some ⟨23, true, true⟩) none, .waitFor 75, .cancel 7]⟩ ∧
    connectedReq.discover_characteristics 8 1 0xffff "" none =
      ⟨connectedReq, .error (.timeout "discover_characteristics timed out"),
       [.sendDiscoverChar (some ⟨23, true, true⟩) 1 0xffff none, .waitFor 75, .cancel 8]⟩ :=
  ⟨timeout_cancels_then_fails.1 connectedReq 517 3 (by decide),
   timeout_cancels_then_fails.2.1 connectedReq 0x2A 4 readyEnv rfl (by decide),
   timeout_cancels_then_fails.2.2.1 connectedReq "180f" (.uuid16 0x180f) 5 readyEnv rfl
     rfl (by decide),
   timeout_cancels_then_fails.2.2.2.1 connectedReq 0x2A [1, 2] 6 readyEnv rfl (by decide),
   timeout_cancels_then_fails.2.2.2.2.1 connectedReq 7 rfl (by decide),
   timeout_cancels_then_fails.2.2.2.2.2 connectedReq 8 1 0xffff rfl (by decide)⟩

/-- Claim C8: `check_channel` polls until the channel and codec-session
handle are both non-null (`env.ready` is the polled value, false at entry
on a fresh connect since `_attrib` is only set by the asynchronous
`connect_cb`), fails with ChannelNotReady ("Channel or attrib not ready")
when the whole `MAX_WAIT_FOR_PACKET` poll budget elapses while unready, and
on the first successful readiness after a fresh connect performs the
one-time HCI connection-parameter update, whose failure (negative
`hci_le_conn_update` return) is raised to the caller as a hard error; a
call that finds the channel already ready performs no further update,
keeping the update one-time. -/
theorem check_channel_spec :
    (∀ (r : GATTRequester) (env : ChanEnv),
      (∀ i, i ≤ env.budget → env.ready i = false) →
      r.check_channel env =
        (.error (.channelNotReady "Channel or attrib not ready"), [])) ∧
    (∀ (r : GATTRequester) (env : ChanEnv),
      env.ready 0 = false → (∃ k, k ≤ env.budget ∧ env.ready k = true) →
      ((r.check_channel env).2 = [.hciConnUpdate] ∧
       (env.connUpdateRet < 0 →
         (r.check_channel env).1 =
           .error (.transportError ("Could not update HCI connection: " ++ env.errnoStr))) ∧
       (¬ env.connUpdateRet < 0 → (r.check_channel env).1 = .ok true))) ∧
    (∀ (r : GATTRequester) (env : ChanEnv),
      env.ready 0 = true → r.check_channel env = (.ok false, [])) := by
  refine ⟨?_, ?_, ?_⟩
  · intro r env h
    have hnone : ccGo env.ready 0 env.budget = none := by
      apply ccGo_none
      intro j hj
      simpa using h j hj
    simp [GATTRequester.check_channel, hnone]
  · intro r env h0 hex
    obtain ⟨k, hk, hrk⟩ := hex
    have hsome : (ccGo env.ready 0 env.budget).isSome = true := by
      apply ccGo_isSome env.ready env.budget 0 k hk
      simpa using hrk
    obtain ⟨m, hm⟩ := Option.isSome_iff_exists.mp hsome
    have hrm : env.ready m = true := ccGo_ready_of_some env.ready env.budget 0 m hm
    have hm0 : m ≠ 0 := by
      intro heq
      rw [heq] at hrm
      rw [h0] at hrm
      exact Bool.noConfusion hrm
    by_cases hneg : env.connUpdateRet < 0
    · refine ⟨?_, fun _ => ?_, fun habs => absurd hneg habs⟩ <;>
        simp [GATTRequester.check_channel, hm, hm0, hneg]
    · refine ⟨?_, fun habs => absurd habs hneg, fun _ => ?_⟩ <;>
        simp [GATTRequester.check_channel, hm, hm0, hneg]
  · intro r env h
    exact check_channel_ready0 r env h

/-- Closed instantiation of `check_channel_spec`: a channel that becomes
ready at the second poll with a successful parameter update, one that never
becomes ready, and one that is ready at entry. -/
theorem check_channel_spec_witness :
    connectedReq.check_channel ⟨fun i => decide (1 ≤ i), 15, 0, "ETIMEDOUT"⟩ =
      (.ok true, [.hciConnUpdate]) ∧
    initRequester.check_channel idleEnv =
      (.error (.channelNotReady "Channel or attrib not ready"), []) ∧
    connectedReq.check_channel readyEnv = (.ok false, []) := by
  refine ⟨?_, ?_, ?_⟩
  · have h := check_channel_spec.2.1 connectedReq
      ⟨fun i => decide (1 ≤ i), 15, 0, "ETIMEDOUT"⟩ rfl ⟨1, by decide, rfl⟩
    obtain ⟨h2, _, h1⟩ := h
    have hres := h1 (by decide)
    have : connectedReq.check_channel ⟨fun i => decide (1 ≤ i), 15, 0, "ETIMEDOUT"⟩ =
        ((connectedReq.check_channel ⟨fun i => decide (1 ≤ i), 15, 0, "ETIMEDOUT"⟩).1,
         (connectedReq.check_channel ⟨fun i => decide (1 ≤ i), 15, 0, "ETIMEDOUT"⟩).2) := rfl
    rw [this, hres, h2]
  · exact check_channel_spec.1 initRequester idleEnv (fun i _ => rfl)
  · exact check_channel_spec.2.2 connectedReq readyEnv rfl

/-- Claim C9: `events_handler` dispatches a notification opcode to
`on_notification` and returns without sending a confirmation; an indication
opcode is dispatched to `on_indication` and then — after the hook — a
confirmation PDU is sent on the same channel, but only when
`enc_confirmation` produced a positive length; and the handler's outcome is
independent of the `g_attrib_send` result, so neither an encode failure
(length 0, confirmation silently skipped) nor a send failure raises an
error to anyone. -/
theorem events_handler_dispatch :
    (∀ (data : List Nat) (enc sres : Nat), data.getD 0 0 = ATT_OP_HANDLE_NOTIFY →
      events_handler data enc sres = .ok [.notifyHook (eventHandleOf data) data]) ∧
    (∀ (data : List Nat) (enc sres : Nat), data.getD 0 0 = ATT_OP_HANDLE_IND → 0 < enc →
      events_handler data enc sres =
        .ok [.indicateHook (eventHandleOf data) data, .sendConfirmation]) ∧
    (∀ (data : List Nat) (sres : Nat), data.getD 0 0 = ATT_OP_HANDLE_IND →
      events_handler data 0 sres = .ok [.indicateHook (eventHandleOf data) data]) ∧
    (∀ (data : List Nat) (enc s1 s2 : Nat),
      events_handler data enc s1 = events_handler data enc s2) := by
  refine ⟨?_, ?_, ?_, ?_⟩
  · intro data enc sres h
    unfold events_handler
    rw [h]
    simp
  · intro data enc sres h henc
    unfold events_handler
    rw [h]
    simp [ATT_OP_HANDLE_NOTIFY, ATT_OP_HANDLE_IND, henc]
  · intro data sres h
    unfold events_handler
    rw [h]
    simp [ATT_OP_HANDLE_NOTIFY, ATT_OP_HANDLE_IND]
  · intro data enc s1 s2
    rfl

/-- Closed instantiation of `events_handler_dispatch`: a notification PDU
for handle 0x0010, an indication for the same handle with a 1-byte encoded
confirmation, and the same indication when encoding yields length 0. -/
theorem events_handler_dispatch_witness :
    events_handler [0x1B, 0x10, 0x00, 0xAA] 1 0 =
      .ok [.notifyHook 0x10 [0x1B, 0x10, 0x00, 0xAA]] ∧
    events_handler [0x1D, 0x10, 0x00, 0xAA] 1 0 =
      .ok [.indicateHook 0x10 [0x1D, 0x10, 0x00, 0xAA], .sendConfirmation] ∧
    events_handler [0x1D, 0x10, 0x00, 0xAA] 0 9 =
      .ok [.indicateHook 0x10 [0x1D, 0x10, 0x00, 0xAA]] :=
  ⟨events_handler_dispatch.1 [0x1B, 0x10, 0x00, 0xAA] 1 0 rfl,
   events_handler_dispatch.2.1 [0x1D, 0x10, 0x00, 0xAA] 1 0 rfl (by decide),
   events_handler_dispatch.2.2.1 [0x1D, 0x10, 0x00, 0xAA] 9 rfl⟩

/-- Claim C7 counterexample: for `read_by_uuid` an empty filter string does
NOT mean "no filter" — the code has no empty-string case there, the empty
string fails UUID parsing, and the call raises InvalidArgument
("Invalid UUID") with no request sent (empty action list), instead of
sending with a null UUID as the claim states. -/
theorem read_by_uuid_empty_string_invalid :
    connectedReq.read_by_uuid "" readyEnv 5 none =
      ⟨connectedReq, .error (.invalidArgument "Invalid UUID\n"), []⟩ := rfl

/-- Claim C7 (amended): for characteristics discovery an empty filter
string means "no filter" (the request is sent with a null UUID), and a
non-empty string that does not parse as a Bluetooth UUID fails with
InvalidArgument before any send; for read-by-UUID the UUID argument is
mandatory — any string that does not parse, the empty string included,
fails with InvalidArgument before any send. -/
theorem uuid_filter_validation :
    (∀ (r : GATTRequester) (id s e : Nat),
      r._state = .connected →
      (r.discover_characteristics_async id s e "").2.head? =
        some (.sendDiscoverChar r._attrib s e none)) ∧
    (∀ (r : GATTRequester) (id s e : Nat) (u : String),
      r._state = .connected → u.length ≠ 0 → bt_string_to_uuid u = none →
      r.discover_characteristics_async id s e u =
        (.error (.invalidArgument "Invalid UUID"), [])) ∧
    (∀ (r : GATTRequester) (u : String) (id : Nat) (env : ChanEnv),
      env.ready 0 = true → bt_string_to_uuid u = none →
      r.read_by_uuid_async u env id =
        (.error (.invalidArgument "Invalid UUID\n"), [])) := by
  refine ⟨?_, ?_, ?_⟩
  · intro r id s e h
    by_cases hid : id = 0 <;>
      simp [GATTRequester.discover_characteristics_async, GATTRequester.check_connected,
        h, hid]
  · intro r id s e u h hu hparse
    simp [GATTRequester.discover_characteristics_async, GATTRequester.check_connected,
      h, hu, hparse]
  · intro r u id env h0 hparse
    simp [GATTRequester.read_by_uuid_async, check_channel_ready0 r env h0, hparse]

/-- Closed instantiation of `uuid_filter_validation`. -/
theorem uuid_filter_validation_witness :
    (connectedReq.discover_characteristics_async 9 1 0xffff "").2.head? =
      some (.sendDiscoverChar (some ⟨23, true, true⟩) 1 0xffff none) ∧
    connectedReq.discover_characteristics_async 9 1 0xffff "zz" =
      (.error (.invalidArgument "Invalid UUID"), []) ∧
    connectedReq.read_by_uuid_async "zz" readyEnv 9 =
      (.error (.invalidArgument "Invalid UUID\n"), []) :=
  ⟨uuid_filter_validation.1 connectedReq 9 1 0xffff rfl,
   uuid_filter_validation.2.1 connectedReq 9 1 0xffff "zz" rfl (by decide) rfl,
   uuid_filter_validation.2.2 connectedReq "zz" 9 readyEnv rfl rfl⟩

/-- Helper: `exchange_mtu` always begins with the codec send, passing
whatever `_attrib` currently holds, and its outcome is never NotConnected
or ChannelNotReady (the possible outcomes are RequestFailed, Timeout,
ProtocolError, or success). -/
theorem exchange_mtu_shape (r : GATTRequester) (mtu id : Nat) (c : Option PduCompletion) :
    (r.exchange_mtu mtu id c).actions.head? = some (.sendMtu r._attrib mtu) ∧
    ∀ msg, (r.exchange_mtu mtu id c).res ≠ .error (.notConnected msg) ∧
           (r.exchange_mtu mtu id c).res ≠ .error (.channelNotReady msg) := by
  unfold GATTRequester.exchange_mtu
  by_cases hid : id = 0
  · simp [hid]
  · cases c with
    | none => simp [hid, GATTResponse.empty, GATTResponse.wait]
    | some cc =>
      by_cases hcc : cc.status = 0 ∧ cc.data.isSome
      · simp [hid, exchange_mtu_cb, hcc, GATTResponse.empty, GATTResponse.wait,
          GATTResponse.notify, GATTResponse.on_response, GATTResponse.received,
          extract_int]
      · simp [hid, exchange_mtu_cb, hcc, GATTResponse.empty, GATTResponse.wait]

/-- Claim C10: `exchange_mtu` performs no connection-state or
channel-readiness check before issuing its request — invoked while
Disconnected (so `_attrib` is NULL) it still reaches the send, passing the
null codec-session handle straight to it, and never fails with NotConnected
or ChannelNotReady; by contrast, in the same state `read_by_handle` (via
`check_channel`, whose poll never becomes ready because nothing is
connecting) fails with ChannelNotReady and `discover_primary` (via
`check_connected`) fails with NotConnected. -/
theorem exchange_mtu_no_state_check :
    (∀ (r : GATTRequester) (mtu id : Nat) (c : Option PduCompletion),
      r._state = .disconnected → r._attrib = none →
      ((r.exchange_mtu mtu id c).actions.head? = some (.sendMtu none mtu) ∧
       ∀ msg, (r.exchange_mtu mtu id c).res ≠ .error (.notConnected msg) ∧
              (r.exchange_mtu mtu id c).res ≠ .error (.channelNotReady msg))) ∧
    (∀ (r : GATTRequester) (handle id : Nat) (c : Option PduCompletion) (env : ChanEnv),
      r._state = .disconnected → (∀ i, i ≤ env.budget → env.ready i = false) →
      (r.read_by_handle handle env id c).res =
        .error (.channelNotReady "Channel or attrib not ready")) ∧
    (∀ (r : GATTRequester) (id : Nat) (c : Option (Nat × List PrimaryRec)),
      r._state = .disconnected →
      (r.discover_primary id c).res = .error (.notConnected "Not connected")) := by
  refine ⟨?_, ?_, ?_⟩
  · intro r mtu id c _ hattr
    have hs := exchange_mtu_shape r mtu id c
    rw [hattr] at hs
    exact hs
  · intro r handle id c env _ hready
    have hnone : ccGo env.ready 0 env.budget = none := by
      apply ccGo_none
      intro j hj
      simpa using hready j hj
    have hcc : r.check_channel env =
        (.error (.channelNotReady "Channel or attrib not ready"), []) := by
      simp [GATTRequester.check_channel, hnone]
    simp [GATTRequester.read_by_handle, GATTRequester.read_by_handle_async, hcc]
  · intro r id c h
    have hnc : r._state ≠ .connected := by rw [h]; decide
    simp [GATTRequester.discover_primary, GATTRequester.discover_primary_async,
      GATTRequester.check_connected, hnc]

/-- Closed instantiation of `exchange_mtu_no_state_check` on a fresh
(disconnected) requester. -/
theorem exchange_mtu_no_state_check_witness :
    (initRequester.exchange_mtu 517 0 none).actions.head? = some (.sendMtu none 517) ∧
    (initRequester.read_by_handle 0x2A idleEnv 3 none).res =
      .error (.channelNotReady "Channel or attrib not ready") ∧
    (initRequester.discover_primary 3 none).res = .error (.notConnected "Not connected") :=
  ⟨(exchange_mtu_no_state_check.1 initRequester 517 0 none rfl rfl).1,
   exchange_mtu_no_state_check.2.1 initRequester 0x2A 3 none idleEnv rfl (fun _ _ => rfl),
   exchange_mtu_no_state_check.2.2 initRequester 3 none rfl⟩

/-- Claim C1 evidence: `exchange_mtu_cb` signals the response only when the
status is zero and the data pointer is non-null, so a remote ATT error
response (here status 1 granting nothing) is silently dropped: the call
waits out the full deadline, cancels, and raises Timeout ("exchange_mtu
timed out") — not the ProtocolError the claim (and the rest of the module's
callbacks, which all notify unconditionally) prescribe. The second conjunct
shows the success path for contrast: a status-0 response granting MTU 185
updates `_mtu`, the codec session MTU, and returns 185. -/
theorem exchange_mtu_error_status_yields_timeout :
    connectedReq.exchange_mtu 517 7 (some ⟨1, some [3, 185, 0]⟩) =
      ⟨connectedReq, .error (.timeout "exchange_mtu timed out"),
       [.sendMtu (some ⟨23, true, true⟩) 517, .waitFor 15, .cancel 7]⟩ ∧
    connectedReq.exchange_mtu 517 7 (some ⟨0, some [3, 185, 0]⟩) =
      ⟨⟨.connected, some (), some ⟨185, true, true⟩, 185⟩, .ok 185,
       [.sendMtu (some ⟨23, true, true⟩) 517, .waitFor 15]⟩ :=
  ⟨rfl, rfl⟩
